import Mathlib

/-!
Verification of the crop-box geometry and timeline assembly of
src/video/make_youtube_short.py (function create_youtube_short).

Real-number arithmetic of the script is modelled over ℚ; the Python
truncating conversion int(...) is modelled by pyInt (floor for nonnegative
arguments, ceiling for negative ones, i.e. truncation toward zero).
-/

/-- Model of Python's int() applied to a real (here rational) value:
truncation toward zero. -/
def pyInt (q : ℚ) : ℤ := if 0 ≤ q then ⌊q⌋ else ⌈q⌉

theorem pyInt_of_nonneg {q : ℚ} (h : 0 ≤ q) : pyInt q = ⌊q⌋ := if_pos h

theorem pyInt_le {q : ℚ} (h : 0 ≤ q) : (pyInt q : ℚ) ≤ q := by
  rw [pyInt_of_nonneg h]; exact Int.floor_le q

theorem lt_pyInt_add_one {q : ℚ} (h : 0 ≤ q) : q < pyInt q + 1 := by
  rw [pyInt_of_nonneg h]; exact Int.lt_floor_add_one q

theorem pyInt_nonneg {q : ℚ} (h : 0 ≤ q) : 0 ≤ pyInt q := by
  rw [pyInt_of_nonneg h]; exact Int.floor_nonneg.mpr h

theorem pyInt_intCast (n : ℤ) : pyInt (n : ℚ) = n := by
  by_cases h : (0 : ℚ) ≤ (n : ℚ)
  · rw [pyInt, if_pos h, Int.floor_intCast]
  · rw [pyInt, if_neg h, Int.ceil_intCast]

theorem pyInt_zero : pyInt 0 = 0 := by
  simpa using pyInt_intCast 0

/-- Lower and upper bound for the truncated quotient of two nonnegative
integers (the quantity int(a / b) in the script). -/
theorem pyInt_div_bounds (a b : ℤ) (ha : 0 ≤ a) (hb : 0 < b) :
    pyInt ((a : ℚ) / (b : ℚ)) * b ≤ a ∧ a < pyInt ((a : ℚ) / (b : ℚ)) * b + b := by
  have hbQ : (0 : ℚ) < (b : ℚ) := by exact_mod_cast hb
  have hq : (0 : ℚ) ≤ (a : ℚ) / (b : ℚ) :=
    div_nonneg (by exact_mod_cast ha) hbQ.le
  have h1 : (pyInt ((a : ℚ) / (b : ℚ)) : ℚ) * b ≤ a :=
    (le_div_iff₀ hbQ).mp (pyInt_le hq)
  have h2 : (a : ℚ) < ((pyInt ((a : ℚ) / (b : ℚ)) : ℚ) + 1) * b :=
    (div_lt_iff₀ hbQ).mp (lt_pyInt_add_one hq)
  rw [add_mul, one_mul] at h2
  exact ⟨by exact_mod_cast h1, by exact_mod_cast h2⟩

/-- Crop rectangle (x1, y1, width, height), as computed by
create_youtube_short. -/
structure CropBox where
  x1 : ℤ
  y1 : ℤ
  w : ℤ
  h : ℤ
deriving DecidableEq

/-- Crop-box dimensions: assume the box spans the full frame height and
derive the width from the aspect ratio; if that width exceeds the frame
width, span the full width instead and derive the height
(make_youtube_short.py lines 78-82 and 189-199). -/
def cropSize (W H aw ah : ℤ) : ℤ × ℤ :=
  let ctw0 := pyInt (((H * aw : ℤ) : ℚ) / ((ah : ℤ) : ℚ))
  if W < ctw0 then (W, pyInt (((W * ah : ℤ) : ℚ) / ((aw : ℤ) : ℚ))) else (ctw0, H)

/-- Clamping of one crop coordinate: x1 = max(0, int(t)); if
x1 + c > L then x1 = L - c; x1 = max(0, x1)
(make_youtube_short.py lines 87-96 and 206-221). -/
def clampCoord (L c : ℤ) (t : ℚ) : ℤ :=
  let a := max 0 (pyInt t)
  let b := if L < a + c then L - c else a
  max 0 b

/-- Crop box centered on the focal point (fx, fy) given as width/height
ratios, clamped to the frame (make_youtube_short.py lines 75-97). -/
def cropBox (W H aw ah : ℤ) (fx fy : ℚ) : CropBox :=
  let wh := cropSize W H aw ah
  { x1 := clampCoord W wh.1 ((W : ℚ) * fx - ((wh.1 : ℤ) : ℚ) / 2)
    y1 := clampCoord H wh.2 ((H : ℚ) * fy - ((wh.2 : ℤ) : ℚ) / 2)
    w := wh.1
    h := wh.2 }

theorem clampCoord_nonneg (L c : ℤ) (t : ℚ) : 0 ≤ clampCoord L c t :=
  le_max_left 0 _

theorem clampCoord_add_le (L c : ℤ) (t : ℚ) (hcL : c ≤ L) :
    clampCoord L c t + c ≤ L := by
  simp only [clampCoord]
  split <;> omega

theorem cropSize_bounds (W H aw ah : ℤ)
    (hW : 0 < W) (hH : 0 < H) (haw : 0 < aw) (hah : 0 < ah) :
    0 ≤ (cropSize W H aw ah).1 ∧ (cropSize W H aw ah).1 ≤ W ∧
    0 ≤ (cropSize W H aw ah).2 ∧ (cropSize W H aw ah).2 ≤ H := by
  have hwa : 0 ≤ W * ah := mul_nonneg hW.le hah.le
  have hha : 0 ≤ H * aw := mul_nonneg hH.le haw.le
  have hctw0 := pyInt_div_bounds (H * aw) ah hha hah
  have hcth := pyInt_div_bounds (W * ah) aw hwa haw
  simp only [cropSize]
  split
  case isTrue hc =>
    dsimp only
    refine ⟨hW.le, le_refl W,
      pyInt_nonneg (div_nonneg (by exact_mod_cast hwa) (by exact_mod_cast haw.le)), ?_⟩
    -- from W < ctw0 and ctw0 * ah ≤ H * aw we get W * ah < H * aw,
    -- hence cth * aw ≤ W * ah < H * aw and cth < H
    have h1 : (W + 1) * ah ≤ pyInt (((H * aw : ℤ) : ℚ) / ((ah : ℤ) : ℚ)) * ah :=
      mul_le_mul_of_nonneg_right (by omega) hah.le
    have h2 : W * ah < H * aw := by linarith [h1, hctw0.1, hah]
    have h3 : pyInt (((W * ah : ℤ) : ℚ) / ((aw : ℤ) : ℚ)) * aw < H * aw :=
      lt_of_le_of_lt hcth.1 h2
    exact le_of_lt (lt_of_mul_lt_mul_right h3 haw.le)
  case isFalse hc =>
    dsimp only
    exact ⟨pyInt_nonneg (div_nonneg (by exact_mod_cast hha) (by exact_mod_cast hah.le)),
      by omega, hH.le, le_refl H⟩

theorem cropSize_ratio (W H aw ah : ℤ)
    (hW : 0 < W) (hH : 0 < H) (haw : 0 < aw) (hah : 0 < ah) :
    ((cropSize W H aw ah).2 * aw - ah < (cropSize W H aw ah).1 * ah ∧
      (cropSize W H aw ah).1 * ah ≤ (cropSize W H aw ah).2 * aw) ∨
    ((cropSize W H aw ah).1 * ah - aw < (cropSize W H aw ah).2 * aw ∧
      (cropSize W H aw ah).2 * aw ≤ (cropSize W H aw ah).1 * ah) := by
  have hwa : 0 ≤ W * ah := mul_nonneg hW.le hah.le
  have hha : 0 ≤ H * aw := mul_nonneg hH.le haw.le
  have hctw0 := pyInt_div_bounds (H * aw) ah hha hah
  have hcth := pyInt_div_bounds (W * ah) aw hwa haw
  simp only [cropSize]
  split
  case isTrue hc =>
    dsimp only
    right
    exact ⟨by linarith [hcth.2], hcth.1⟩
  case isFalse hc =>
    dsimp only
    left
    exact ⟨by linarith [hctw0.2], hctw0.1⟩

theorem clampCoord_zero (L : ℤ) : clampCoord L L 0 = 0 := by
  simp [clampCoord, pyInt_zero]

theorem cropSize_of_match (W H aw ah : ℤ) (hah : 0 < ah) (hmatch : W * ah = H * aw) :
    cropSize W H aw ah = (W, H) := by
  have hahQ : ((ah : ℤ) : ℚ) ≠ 0 := by
    exact_mod_cast ne_of_gt hah
  have hq : (((H * aw : ℤ) : ℚ) / ((ah : ℤ) : ℚ)) = ((W : ℤ) : ℚ) := by
    rw [← hmatch]
    push_cast
    exact mul_div_cancel_right₀ _ hahQ
  simp only [cropSize, hq, pyInt_intCast, lt_irrefl, if_false]

/-- C1: for every frame size (W, H) with W > 0 and H > 0, every target
aspect ratio (aw, ah) with positive components and every focal point
(fx, fy), the crop box (x1, y1, width, height) computed by the per-segment
geometry satisfies 0 ≤ x1, 0 ≤ y1, x1 + width ≤ W, y1 + height ≤ H, and
width : height equals aw : ah up to the integer rounding of the code
(the rounded side differs from the exact ratio by less than one
denominator unit). -/
theorem crop_box_within_frame (W H aw ah : ℤ) (fx fy : ℚ)
    (hW : 0 < W) (hH : 0 < H) (haw : 0 < aw) (hah : 0 < ah) :
    0 ≤ (cropBox W H aw ah fx fy).x1 ∧
    0 ≤ (cropBox W H aw ah fx fy).y1 ∧
    (cropBox W H aw ah fx fy).x1 + (cropBox W H aw ah fx fy).w ≤ W ∧
    (cropBox W H aw ah fx fy).y1 + (cropBox W H aw ah fx fy).h ≤ H ∧
    (((cropBox W H aw ah fx fy).h * aw - ah < (cropBox W H aw ah fx fy).w * ah ∧
      (cropBox W H aw ah fx fy).w * ah ≤ (cropBox W H aw ah fx fy).h * aw) ∨
     ((cropBox W H aw ah fx fy).w * ah - aw < (cropBox W H aw ah fx fy).h * aw ∧
      (cropBox W H aw ah fx fy).h * aw ≤ (cropBox W H aw ah fx fy).w * ah)) := by
  obtain ⟨h0w, hwW, h0h, hhH⟩ := cropSize_bounds W H aw ah hW hH haw hah
  have hr := cropSize_ratio W H aw ah hW hH haw hah
  simp only [cropBox]
  exact ⟨clampCoord_nonneg _ _ _, clampCoord_nonneg _ _ _,
    clampCoord_add_le _ _ _ hwW, clampCoord_add_le _ _ _ hhH, hr⟩

theorem crop_box_within_frame_witness :
    ((0:ℤ) < 1920 ∧ (0:ℤ) < 1080 ∧ (0:ℤ) < 9 ∧ (0:ℤ) < 16) ∧
    (0 ≤ (cropBox 1920 1080 9 16 (3/10) (1/2)).x1 ∧
     0 ≤ (cropBox 1920 1080 9 16 (3/10) (1/2)).y1 ∧
     (cropBox 1920 1080 9 16 (3/10) (1/2)).x1 + (cropBox 1920 1080 9 16 (3/10) (1/2)).w ≤ 1920 ∧
     (cropBox 1920 1080 9 16 (3/10) (1/2)).y1 + (cropBox 1920 1080 9 16 (3/10) (1/2)).h ≤ 1080 ∧
     (((cropBox 1920 1080 9 16 (3/10) (1/2)).h * 9 - 16 < (cropBox 1920 1080 9 16 (3/10) (1/2)).w * 16 ∧
       (cropBox 1920 1080 9 16 (3/10) (1/2)).w * 16 ≤ (cropBox 1920 1080 9 16 (3/10) (1/2)).h * 9) ∨
      ((cropBox 1920 1080 9 16 (3/10) (1/2)).w * 16 - 9 < (cropBox 1920 1080 9 16 (3/10) (1/2)).h * 9 ∧
       (cropBox 1920 1080 9 16 (3/10) (1/2)).h * 9 ≤ (cropBox 1920 1080 9 16 (3/10) (1/2)).w * 16))) :=
  ⟨⟨by decide, by decide, by decide, by decide⟩,
   crop_box_within_frame 1920 1080 9 16 (3/10) (1/2)
     (by decide) (by decide) (by decide) (by decide)⟩

/-- C6: for every frame (W, H) whose aspect ratio already equals the
target ratio aw : ah, the crop box computed with focal point (0.5, 0.5)
is the full frame: x1 = 0, y1 = 0, width = W, height = H. -/
theorem crop_box_full_frame (W H aw ah : ℤ)
    (hW : 0 < W) (hH : 0 < H) (haw : 0 < aw) (hah : 0 < ah)
    (hmatch : W * ah = H * aw) :
    cropBox W H aw ah (1/2) (1/2) = ⟨0, 0, W, H⟩ := by
  have hcs := cropSize_of_match W H aw ah hah hmatch
  have hx : (W : ℚ) * (1/2) - (W : ℚ) / 2 = 0 := by ring
  have hy : (H : ℚ) * (1/2) - (H : ℚ) / 2 = 0 := by ring
  simp only [cropBox, hcs]
  show CropBox.mk (clampCoord W W ((W : ℚ) * (1/2) - (W : ℚ) / 2))
      (clampCoord H H ((H : ℚ) * (1/2) - (H : ℚ) / 2)) W H = ⟨0, 0, W, H⟩
  rw [hx, hy, clampCoord_zero, clampCoord_zero]

theorem crop_box_full_frame_witness :
    ((0:ℤ) < 9 ∧ (0:ℤ) < 16 ∧ (9 : ℤ) * 16 = 16 * 9) ∧
    cropBox 9 16 9 16 (1/2) (1/2) = ⟨0, 0, 9, 16⟩ :=
  ⟨⟨by decide, by decide, by decide⟩,
   crop_box_full_frame 9 16 9 16 (by decide) (by decide) (by decide) (by decide) (by decide)⟩

/-- Symbolic model of the moviepy clip values built by
create_youtube_short. Only the attributes the script reads (duration and
frame size) are interpreted; everything else stays symbolic. -/
inductive Clip where
  | source (dur : ℚ)
  | subclipC (c : Clip) (s e : ℚ)
  | speedxC (c : Clip) (m : ℚ)
  | cropC (c : Clip) (x1 y1 w h : ℤ)
  | resizeC (c : Clip) (w h : ℤ)
  | imageC (dur : ℚ)
  | fadeinC (c : Clip) (d : ℚ)
  | fadeoutC (c : Clip) (d : ℚ)
  | concatC (cs : List Clip)

mutual

/-- Duration of a clip: subclip(s, e) lasts e - s, speedx divides the
duration by the factor, crop / resize / fades keep it, an image clip
lasts its set_duration argument, concatenation adds. -/
def Clip.duration : Clip → ℚ
  | .source d => d
  | .subclipC _ s e => e - s
  | .speedxC c m => Clip.duration c / m
  | .cropC c _ _ _ _ => Clip.duration c
  | .resizeC c _ _ => Clip.duration c
  | .imageC d => d
  | .fadeinC c _ => Clip.duration c
  | .fadeoutC c _ => Clip.duration c
  | .concatC cs => Clip.durationSum cs

/-- Total duration of a list of clips. -/
def Clip.durationSum : List Clip → ℚ
  | [] => 0
  | c :: cs => Clip.duration c + Clip.durationSum cs

end

/-- Environment of one invocation: the observable behaviour of the file
system and of the external video/image libraries. -/
structure Env where
  loadOk : Bool
  srcDuration : ℚ
  srcW : ℤ
  srcH : ℤ
  imageExists : Bool
  imgW : ℤ
  imgH : ℤ
  writeOk : Bool

/-- Frame size of a clip: the source and image clips have the sizes found
in the environment, crop and resize set a new size, the time-only
transformations keep it, and a concatenation of equal-sized clips has the
size of its first clip. -/
def Clip.size (env : Env) : Clip → ℤ × ℤ
  | .source _ => (env.srcW, env.srcH)
  | .subclipC c _ _ => Clip.size env c
  | .speedxC c _ => Clip.size env c
  | .cropC _ _ _ w h => (w, h)
  | .resizeC _ w h => (w, h)
  | .imageC _ => (env.imgW, env.imgH)
  | .fadeinC c _ => Clip.size env c
  | .fadeoutC c _ => Clip.size env c
  | .concatC [] => (0, 0)
  | .concatC (c :: _) => Clip.size env c

/-- Arguments of create_youtube_short that the model interprets. -/
structure Args where
  clips_of_interest : Option (List (ℚ × ℚ))
  speed_multiplier : ℚ
  target_aspect_ratio : ℤ × ℤ
  max_duration_sec : ℚ
  focal_points : Option (List (ℚ × ℚ))
  output_resolution : ℤ × ℤ
  image_path : Option String

/-- How one invocation of create_youtube_short terminates. loadError,
noClipsError and writeError are reported with a printed message and a
normal return (no exception reaches the caller); raised models an
unhandled Python exception propagating out of the function; wrote is the
successful completion. -/
inductive RunResult where
  | loadError
  | noClipsError
  | writeError
  | wrote
  | raised (msg : String)
deriving DecidableEq

/-- Observable outcome of one invocation: termination kind, the list
final_clips, the final video value, which close() calls ran, and whether
the missing-image warning was printed. -/
structure Outcome where
  result : RunResult
  finalClips : List Clip
  finalVideo : Option Clip
  sourceClosed : Bool
  finalClipsClosed : Bool
  finalVideoClosed : Bool
  warnedImageMissing : Bool

/-- Focal point used for segment number idx: the idx-th entry when the
focal-point list is given and long enough, the centre (0.5, 0.5)
otherwise (make_youtube_short.py lines 69-72). -/
def focalFor (fps : Option (List (ℚ × ℚ))) (idx : ℕ) : ℚ × ℚ :=
  match fps with
  | none => (1/2, 1/2)
  | some l => if h : idx < l.length then l.get ⟨idx, h⟩ else (1/2, 1/2)

/-- One segment of the per-segment loop before duration trimming:
subclip, speedx, crop to the focal-point crop box, resize when the
cropped size differs from the output resolution
(make_youtube_short.py lines 64-113). -/
def processedClip (env : Env) (a : Args) (idx : ℕ) (s e : ℚ) : Clip :=
  let sped := Clip.speedxC (Clip.subclipC (Clip.source env.srcDuration) s e) a.speed_multiplier
  let fp := focalFor a.focal_points idx
  let sz := Clip.size env sped
  let cb := cropBox sz.1 sz.2 a.target_aspect_ratio.1 a.target_aspect_ratio.2 fp.1 fp.2
  let cropped := Clip.cropC sped cb.x1 cb.y1 cb.w cb.h
  if Clip.size env cropped ≠ a.output_resolution
  then Clip.resizeC cropped a.output_resolution.1 a.output_resolution.2
  else cropped

/-- The per-segment loop of create_youtube_short (lines 58-121): break
once the accumulated duration reaches the maximum, trim the segment that
would overflow to the remaining budget, skip it if the trimmed duration
is not positive, otherwise append and accumulate. Returns the appended
clips and the final accumulated duration. -/
def segLoop (env : Env) (a : Args) : List (ℚ × ℚ) → ℕ → ℚ → List Clip × ℚ
  | [], _, cur => ([], cur)
  | (s, e) :: rest, idx, cur =>
    if a.max_duration_sec ≤ cur then ([], cur)
    else
      let c := processedClip env a idx s e
      if a.max_duration_sec < cur + Clip.duration c then
        let trimmed := Clip.subclipC c 0 (a.max_duration_sec - cur)
        if Clip.duration trimmed ≤ 0 then
          segLoop env a rest (idx + 1) cur
        else
          let r := segLoop env a rest (idx + 1) (cur + Clip.duration trimmed)
          (trimmed :: r.1, r.2)
      else
        let r := segLoop env a rest (idx + 1) (cur + Clip.duration c)
        (c :: r.1, r.2)

/-- Number of image slides (num_parts = 4 in the script). -/
def numParts : ℕ := 4

/-- Duration of one image slide (duration_per_part = 1.5 s). -/
def partDuration : ℚ := 3/2

/-- Fade-in / fade-out duration of an image slide (fade_duration = 0.2 s). -/
def fadeDuration : ℚ := 1/5

/-- Scaled size of the oriented image: a landscape image is scaled to the
output height, a portrait or square image to the output width
(make_youtube_short.py lines 132-139). -/
def scaledSize (imgW imgH outW outH : ℤ) : ℤ × ℤ :=
  if imgH < imgW then
    (pyInt ((imgW : ℚ) * ((outH : ℚ) / (imgH : ℚ))), outH)
  else
    (outW, pyInt ((imgH : ℚ) * ((outW : ℚ) / (imgW : ℚ))))

/-- Pan offset (x_crop, y_crop) of slide number i: horizontal motion for a
landscape image, vertical for portrait, linearly interpolated as
int(i * max_offset / (num_parts - 1)) (make_youtube_short.py lines
149-163). -/
def panOffset (imgW imgH outW outH : ℤ) (i : ℕ) : ℤ × ℤ :=
  let nwh := scaledSize imgW imgH outW outH
  if imgH < imgW then
    let m := nwh.1 - outW
    (if numParts = 1 then Int.fdiv m 2
     else pyInt ((((i : ℤ) * m : ℤ) : ℚ) / (((numParts : ℤ) - 1 : ℤ) : ℚ)), 0)
  else
    let m := nwh.2 - outH
    (0, if numParts = 1 then Int.fdiv m 2
        else pyInt ((((i : ℤ) * m : ℤ) : ℚ) / (((numParts : ℤ) - 1 : ℤ) : ℚ)))

/-- Slide number i built from the oriented image: fixed-duration image
clip, resized to the scaled size, cropped at the pan offset to the output
resolution, with fade-in and fade-out (make_youtube_short.py lines
146-168). -/
def slideClip (env : Env) (a : Args) (i : ℕ) : Clip :=
  let nwh := scaledSize env.imgW env.imgH a.output_resolution.1 a.output_resolution.2
  let off := panOffset env.imgW env.imgH a.output_resolution.1 a.output_resolution.2 i
  let resized := Clip.resizeC (Clip.imageC partDuration) nwh.1 nwh.2
  let croppedI := Clip.cropC resized off.1 off.2 a.output_resolution.1 a.output_resolution.2
  Clip.fadeoutC (Clip.fadeinC croppedI fadeDuration) fadeDuration

/-- The num_parts slides appended for the optional trailing image. -/
def slides (env : Env) (a : Args) : List Clip :=
  (List.range numParts).map (slideClip env a)

/-- Image clips appended to final_clips: the slides when an image path was
supplied and the file exists, nothing otherwise
(make_youtube_short.py lines 124-176). -/
def imageClips (env : Env) (a : Args) : List Clip :=
  match a.image_path with
  | some _ => if env.imageExists then slides env a else []
  | none => []

/-- Whether the missing-image warning of lines 175-176 is printed. -/
def warnImage (env : Env) (a : Args) : Bool :=
  a.image_path.isSome && !env.imageExists

/-- Final assembly applied to the concatenation of final_clips: crop box
derived from the given focal point, then resize when the size differs
from the output resolution (make_youtube_short.py lines 182-241). -/
def finalAssembly (env : Env) (a : Args) (clips : List Clip) (fp : ℚ × ℚ) : Clip :=
  let fc := Clip.concatC clips
  let sz := Clip.size env fc
  let cb := cropBox sz.1 sz.2 a.target_aspect_ratio.1 a.target_aspect_ratio.2 fp.1 fp.2
  let cropped := Clip.cropC fc cb.x1 cb.y1 cb.w cb.h
  if (Clip.size env cropped).2 ≠ a.output_resolution.2 ∨
      (Clip.size env cropped).1 ≠ a.output_resolution.1
  then Clip.resizeC cropped a.output_resolution.1 a.output_resolution.2
  else cropped

/-- Model of one invocation of create_youtube_short. The Python control
flow is mirrored step by step: load (soft failure on error), iteration
over clips_of_interest (an unhandled TypeError when it is None), the
per-segment loop, the optional image slides, the no-clips soft failure
(which returns without closing the source clip), the final assembly
(an unhandled exception when focal_points is None or empty), and the
write step whose try/finally closes every clip whether or not the write
succeeded. -/
def create_youtube_short (env : Env) (a : Args) : Outcome :=
  if env.loadOk then
    match a.clips_of_interest with
    | none =>
      { result := RunResult.raised "TypeError", finalClips := [], finalVideo := none,
        sourceClosed := false, finalClipsClosed := false, finalVideoClosed := false,
        warnedImageMissing := false }
    | some segs =>
      let segClips := (segLoop env a segs 0 0).1
      let warned := warnImage env a
      match segClips ++ imageClips env a with
      | [] =>
        { result := RunResult.noClipsError, finalClips := [], finalVideo := none,
          sourceClosed := false, finalClipsClosed := false, finalVideoClosed := false,
          warnedImageMissing := warned }
      | c :: cs =>
        match a.focal_points with
        | none =>
          { result := RunResult.raised "TypeError", finalClips := c :: cs, finalVideo := none,
            sourceClosed := false, finalClipsClosed := false, finalVideoClosed := false,
            warnedImageMissing := warned }
        | some [] =>
          { result := RunResult.raised "IndexError", finalClips := c :: cs, finalVideo := none,
            sourceClosed := false, finalClipsClosed := false, finalVideoClosed := false,
            warnedImageMissing := warned }
        | some (fp :: _) =>
          { result := if env.writeOk then RunResult.wrote else RunResult.writeError,
            finalClips := c :: cs,
            finalVideo := some (finalAssembly env a (c :: cs) fp),
            sourceClosed := true, finalClipsClosed := true, finalVideoClosed := true,
            warnedImageMissing := warned }
  else
    { result := RunResult.loadError, finalClips := [], finalVideo := none,
      sourceClosed := false, finalClipsClosed := false, finalVideoClosed := false,
      warnedImageMissing := false }

/-- Transformed (sped-up) duration of a segment (s, e): (e - s) divided by
the speed multiplier. -/
def tdur (m : ℚ) (p : ℚ × ℚ) : ℚ := (p.2 - p.1) / m

theorem duration_processedClip (env : Env) (a : Args) (idx : ℕ) (s e : ℚ) :
    Clip.duration (processedClip env a idx s e) = (e - s) / a.speed_multiplier := by
  simp only [processedClip]
  split <;> rfl

theorem segLoop_stop (env : Env) (a : Args) (segs : List (ℚ × ℚ)) (idx : ℕ) (cur : ℚ)
    (h : a.max_duration_sec ≤ cur) : (segLoop env a segs idx cur).1 = [] := by
  cases segs with
  | nil => rfl
  | cons p rest =>
    obtain ⟨s, e⟩ := p
    simp [segLoop, h]

/-- Core invariant of the per-segment loop: if the budget is not yet
exhausted and the remaining transformed durations overshoot it, then the
produced clips are the untouched prefix of the segments followed by one
clip trimmed to exactly the remaining budget, and nothing further. -/
theorem segLoop_exceeds (env : Env) (a : Args) (segs : List (ℚ × ℚ)) :
    ∀ (idx : ℕ) (cur : ℚ),
      cur < a.max_duration_sec →
      a.max_duration_sec < cur + ((segs.map (tdur a.speed_multiplier)).sum) →
      ∃ k, 1 ≤ k ∧ k ≤ segs.length ∧
        ((segLoop env a segs idx cur).1.map Clip.duration) =
          ((segs.take (k - 1)).map (tdur a.speed_multiplier)) ++
          [a.max_duration_sec - cur -
            ((segs.take (k - 1)).map (tdur a.speed_multiplier)).sum] := by
  induction segs with
  | nil =>
    intro idx cur hcur hex
    simp only [List.map_nil, List.sum_nil, add_zero] at hex
    exact absurd hex (not_lt.mpr hcur.le)
  | cons p rest ih =>
    obtain ⟨s, e⟩ := p
    intro idx cur hcur hex
    simp only [segLoop]
    rw [if_neg (not_le.mpr hcur)]
    simp only [duration_processedClip, Clip.duration]
    by_cases hd : a.max_duration_sec < cur + (e - s) / a.speed_multiplier
    · -- the segment overflows the budget: it is trimmed and the loop stops
      rw [if_pos hd, if_neg (by linarith : ¬ a.max_duration_sec - cur - 0 ≤ 0)]
      have hnext : cur + (a.max_duration_sec - cur - 0) = a.max_duration_sec := by ring
      rw [hnext, segLoop_stop env a rest (idx + 1) a.max_duration_sec (le_refl _)]
      refine ⟨1, le_refl 1, by simp, ?_⟩
      simp [Clip.duration, sub_zero]
    · -- the whole segment fits
      rw [if_neg hd]
      push_neg at hd
      rcases eq_or_lt_of_le hd with heq | hlt
      · -- it fits exactly: the loop stops at the next iteration
        rw [heq, segLoop_stop env a rest (idx + 1) a.max_duration_sec (le_refl _)]
        refine ⟨1, le_refl 1, by simp, ?_⟩
        have : (e - s) / a.speed_multiplier = a.max_duration_sec - cur := by linarith
        simp [duration_processedClip, this]
      · -- strictly below the budget: use the induction hypothesis
        have hex' : a.max_duration_sec <
            cur + (e - s) / a.speed_multiplier + ((rest.map (tdur a.speed_multiplier)).sum) := by
          simp only [List.map_cons, List.sum_cons, tdur] at hex
          linarith
        obtain ⟨k', hk1, hk2, heq'⟩ := ih (idx + 1) (cur + (e - s) / a.speed_multiplier) hlt hex'
        obtain ⟨k'', rfl⟩ : ∃ n, k' = n + 1 := ⟨k' - 1, by omega⟩
        refine ⟨k'' + 1 + 1, by omega, by simp; omega, ?_⟩
        simp only [List.map_cons, heq', Nat.add_sub_cancel] at *
        simp only [List.take_succ_cons, List.map_cons, List.sum_cons, List.cons_append,
          Nat.add_sub_cancel]
        congr 1
        · simp [duration_processedClip, tdur]
        congr 1
        simp only [tdur]
        ring_nf

/-- C2: for every segment list whose cumulative transformed (sped-up)
duration exceeds a positive max_duration_sec, the per-segment loop stops
early: the appended clips are exactly an initial run of the segments, the
clip at the truncation point is trimmed so that the assembled total
duration equals exactly max_duration_sec, and no segment past the
truncation point is included (a segment whose duration after trimming
were not positive would be skipped, which the trimming rule keeps from
occurring). -/
theorem assembly_truncates_at_max (env : Env) (a : Args) (segs : List (ℚ × ℚ))
    (hpos : 0 < a.max_duration_sec)
    (hex : a.max_duration_sec < ((segs.map (tdur a.speed_multiplier)).sum)) :
    (((segLoop env a segs 0 0).1.map Clip.duration).sum = a.max_duration_sec) ∧
    ∃ k, 1 ≤ k ∧ k ≤ segs.length ∧ (segLoop env a segs 0 0).1.length = k ∧
      ((segLoop env a segs 0 0).1.map Clip.duration) =
        ((segs.take (k - 1)).map (tdur a.speed_multiplier)) ++
        [a.max_duration_sec - ((segs.take (k - 1)).map (tdur a.speed_multiplier)).sum] := by
  obtain ⟨k, hk1, hk2, heq⟩ := segLoop_exceeds env a segs 0 0 hpos (by simpa using hex)
  rw [sub_zero] at heq
  constructor
  · rw [heq]
    simp only [List.sum_append, List.sum_cons, List.sum_nil]
    ring
  · refine ⟨k, hk1, hk2, ?_, heq⟩
    have hlen := congrArg List.length heq
    simp only [List.length_map, List.length_append, List.length_take,
      List.length_cons, List.length_nil] at hlen
    omega

/-- Environment used by the concrete witnesses: successful load of a
1920 x 1080 source, no trailing image on disk, successful write. -/
def envW : Env :=
  { loadOk := true, srcDuration := 100, srcW := 1920, srcH := 1080,
    imageExists := false, imgW := 400, imgH := 300, writeOk := true }

/-- Segments used by the truncation witness. -/
def segsC2 : List (ℚ × ℚ) := [(0, 2), (2, 4)]

/-- Arguments used by the truncation witness: two two-second segments at
speed 1 against a three-second budget. -/
def argsC2 : Args :=
  { clips_of_interest := some segsC2, speed_multiplier := 1,
    target_aspect_ratio := (9, 16), max_duration_sec := 3, focal_points := none,
    output_resolution := (1080, 1920), image_path := none }

theorem assembly_truncates_at_max_witness :
    ((0:ℚ) < argsC2.max_duration_sec ∧
      argsC2.max_duration_sec < ((segsC2.map (tdur argsC2.speed_multiplier)).sum)) ∧
    ((((segLoop envW argsC2 segsC2 0 0).1.map Clip.duration).sum = argsC2.max_duration_sec) ∧
     ∃ k, 1 ≤ k ∧ k ≤ segsC2.length ∧ (segLoop envW argsC2 segsC2 0 0).1.length = k ∧
       ((segLoop envW argsC2 segsC2 0 0).1.map Clip.duration) =
         ((segsC2.take (k - 1)).map (tdur argsC2.speed_multiplier)) ++
         [argsC2.max_duration_sec -
           ((segsC2.take (k - 1)).map (tdur argsC2.speed_multiplier)).sum]) :=
  ⟨⟨of_decide_eq_true (by with_unfolding_all rfl),
    of_decide_eq_true (by with_unfolding_all rfl)⟩,
   assembly_truncates_at_max envW argsC2 segsC2
     (of_decide_eq_true (by with_unfolding_all rfl))
     (of_decide_eq_true (by with_unfolding_all rfl))⟩

/-- C3: for every invocation that produces at least one clip, the final
assembly concatenates all produced segment and slide clips in input order
(segment clips first, then slide clips) and re-derives the crop box for
the concatenated result using only the first focal point of the supplied
list: the final video is finalAssembly applied to the full clip list and
the head fp of focal_points, whatever the tail holds. -/
theorem final_crop_uses_first_focal (env : Env) (a : Args) (segs : List (ℚ × ℚ))
    (fp : ℚ × ℚ) (rest : List (ℚ × ℚ))
    (hload : env.loadOk = true)
    (hseg : a.clips_of_interest = some segs)
    (hfp : a.focal_points = some (fp :: rest))
    (hne : 0 < ((segLoop env a segs 0 0).1 ++ imageClips env a).length) :
    (create_youtube_short env a).finalClips =
      (segLoop env a segs 0 0).1 ++ imageClips env a ∧
    (create_youtube_short env a).finalVideo =
      some (finalAssembly env a ((segLoop env a segs 0 0).1 ++ imageClips env a) fp) := by
  rcases hl : (segLoop env a segs 0 0).1 ++ imageClips env a with _ | ⟨c, cs⟩
  · rw [hl] at hne
    simp at hne
  · constructor <;> simp [create_youtube_short, hload, hseg, hfp, hl]

/-- C4: a failure while loading the source video makes the function
report and return with no output and no exception; a failure while
writing the output file on the path that reaches the write step is
likewise reported without raising. -/
theorem load_and_write_failures_soft (env : Env) (a : Args) (segs : List (ℚ × ℚ))
    (fp : ℚ × ℚ) (rest : List (ℚ × ℚ))
    (hseg : a.clips_of_interest = some segs)
    (hfp : a.focal_points = some (fp :: rest))
    (hne : 0 < ((segLoop env a segs 0 0).1 ++ imageClips env a).length) :
    (env.loadOk = false →
      (create_youtube_short env a).result = RunResult.loadError ∧
      (create_youtube_short env a).finalVideo = none ∧
      ∀ msg, (create_youtube_short env a).result ≠ RunResult.raised msg) ∧
    (env.loadOk = true → env.writeOk = false →
      (create_youtube_short env a).result = RunResult.writeError ∧
      ∀ msg, (create_youtube_short env a).result ≠ RunResult.raised msg) := by
  constructor
  · intro hload
    simp [create_youtube_short, hload]
  · intro hload hwrite
    rcases hl : (segLoop env a segs 0 0).1 ++ imageClips env a with _ | ⟨c, cs⟩
    · rw [hl] at hne
      simp at hne
    · simp [create_youtube_short, hload, hseg, hfp, hl, hwrite]

/-- C5 (amended): once execution reaches the final write step, the
try/finally releases the source clip, every clip of final_clips and the
final video, whatever the write outcome; the claim's stronger form
(release on every return path) fails on the no-clips early return, see
the counterexample. -/
theorem cleanup_on_write_path (env : Env) (a : Args) (segs : List (ℚ × ℚ))
    (fp : ℚ × ℚ) (rest : List (ℚ × ℚ))
    (hload : env.loadOk = true)
    (hseg : a.clips_of_interest = some segs)
    (hfp : a.focal_points = some (fp :: rest))
    (hne : 0 < ((segLoop env a segs 0 0).1 ++ imageClips env a).length) :
    (create_youtube_short env a).sourceClosed = true ∧
    (create_youtube_short env a).finalClipsClosed = true ∧
    (create_youtube_short env a).finalVideoClosed = true := by
  rcases hl : (segLoop env a segs 0 0).1 ++ imageClips env a with _ | ⟨c, cs⟩
  · rw [hl] at hne
    simp at hne
  · simp [create_youtube_short, hload, hseg, hfp, hl]

/-- Arguments exhibiting the no-clips early return: an empty segment list
and no trailing image. -/
def argsC5 : Args :=
  { clips_of_interest := some [], speed_multiplier := 2,
    target_aspect_ratio := (9, 16), max_duration_sec := 59,
    focal_points := some [(1/2, 1/2)], output_resolution := (1080, 1920),
    image_path := none }

/-- C5 counterexample: with a successfully loaded source and an invocation
that produces no clips, create_youtube_short returns through the no-clips
error path without closing the source clip, refuting the claim that every
return path after a successful load releases all resources. -/
theorem cleanup_not_unconditional :
    envW.loadOk = true ∧
    (create_youtube_short envW argsC5).result = RunResult.noClipsError ∧
    (create_youtube_short envW argsC5).sourceClosed = false := by
  refine ⟨rfl, ?_, ?_⟩ <;> with_unfolding_all rfl

/-- C8: when the supplied image path does not refer to an existing file,
the missing-image warning is printed, no image slides are appended, and
an otherwise valid invocation completes successfully using only the
processed video segments. -/
theorem missing_image_nonfatal (env : Env) (a : Args) (segs : List (ℚ × ℚ))
    (p : String) (fp : ℚ × ℚ) (rest : List (ℚ × ℚ))
    (hload : env.loadOk = true)
    (hseg : a.clips_of_interest = some segs)
    (himg : a.image_path = some p)
    (hiex : env.imageExists = false)
    (hfp : a.focal_points = some (fp :: rest))
    (hne : 0 < (segLoop env a segs 0 0).1.length)
    (hw : env.writeOk = true) :
    (create_youtube_short env a).warnedImageMissing = true ∧
    (create_youtube_short env a).finalClips = (segLoop env a segs 0 0).1 ∧
    (create_youtube_short env a).result = RunResult.wrote := by
  have hic : imageClips env a = [] := by simp [imageClips, himg, hiex]
  rcases hl : (segLoop env a segs 0 0).1 with _ | ⟨c, cs⟩
  · rw [hl] at hne
    simp at hne
  · have hl2 : (segLoop env a segs 0 0).1 ++ imageClips env a = c :: cs := by
      rw [hl, hic, List.append_nil]
    refine ⟨?_, ?_, ?_⟩ <;>
      simp [create_youtube_short, hload, hseg, hfp, hl2, hw, warnImage, himg, hiex, hl, hic]

/-- C9: when focal_points is None or the empty list and at least one clip
was produced, the final-assembly subscription focal_points[0] raises an
unhandled exception: the function does not complete (no final video, no
cleanup), even though the per-segment loop had honoured the parameter's
optionality by falling back to the centre focal point. -/
theorem empty_focal_list_raises (env : Env) (a : Args) (segs : List (ℚ × ℚ))
    (hload : env.loadOk = true)
    (hseg : a.clips_of_interest = some segs)
    (hfp : a.focal_points = none ∨ a.focal_points = some [])
    (hne : 0 < ((segLoop env a segs 0 0).1 ++ imageClips env a).length) :
    (∃ msg, (create_youtube_short env a).result = RunResult.raised msg) ∧
    (create_youtube_short env a).finalVideo = none ∧
    (create_youtube_short env a).sourceClosed = false ∧
    (∀ idx, focalFor a.focal_points idx = (1/2, 1/2)) := by
  rcases hl : (segLoop env a segs 0 0).1 ++ imageClips env a with _ | ⟨c, cs⟩
  · rw [hl] at hne
    simp at hne
  · rcases hfp with hfp | hfp
    · exact ⟨⟨"TypeError", by simp [create_youtube_short, hload, hseg, hfp, hl]⟩,
        by simp [create_youtube_short, hload, hseg, hfp, hl],
        by simp [create_youtube_short, hload, hseg, hfp, hl],
        fun idx => by simp [focalFor, hfp]⟩
    · exact ⟨⟨"IndexError", by simp [create_youtube_short, hload, hseg, hfp, hl]⟩,
        by simp [create_youtube_short, hload, hseg, hfp, hl],
        by simp [create_youtube_short, hload, hseg, hfp, hl],
        fun idx => by simp [focalFor, hfp]⟩

/-- C10: when clips_of_interest is left at its default None and the video
loads successfully, iterating over it raises an unhandled TypeError
instead of reaching the reported non-raising no-clips condition. -/
theorem none_segment_list_raises (env : Env) (a : Args)
    (hload : env.loadOk = true)
    (hseg : a.clips_of_interest = none) :
    (create_youtube_short env a).result = RunResult.raised "TypeError" ∧
    (create_youtube_short env a).result ≠ RunResult.noClipsError := by
  constructor <;> simp [create_youtube_short, hload, hseg]

theorem panOffset_landscape (imgW imgH outW outH : ℤ) (hland : imgH < imgW) (i : ℕ) :
    panOffset imgW imgH outW outH i =
      (pyInt ((i : ℚ) * ((((scaledSize imgW imgH outW outH).1 - outW : ℤ) : ℚ)) / 3), 0) := by
  have hnum : (((numParts : ℤ) - 1 : ℤ) : ℚ) = 3 := by norm_num [numParts]
  simp only [panOffset]
  rw [if_pos hland, if_neg (by decide : ¬ numParts = 1), hnum]
  simp only [Prod.mk.injEq]
  refine ⟨?_, trivial⟩
  congr 1
  push_cast
  ring

/-- C7: for a landscape source image (width greater than height) and
num_parts = 4, the horizontal pan offsets of the four generated slides
are 0, max_offset / 3, 2 * max_offset / 3 and max_offset — the two
interior values truncated to whole pixels exactly as the code's
int(i * max_offset / 3) — where max_offset is the scaled image width
minus the output width; every vertical offset is 0. -/
theorem landscape_pan_offsets (imgW imgH outW outH : ℤ) (hland : imgH < imgW) :
    (List.range numParts).map (panOffset imgW imgH outW outH) =
      [(0, 0),
       (pyInt (((((scaledSize imgW imgH outW outH).1 - outW : ℤ) : ℚ)) / 3), 0),
       (pyInt ((2 * ((((scaledSize imgW imgH outW outH).1 - outW : ℤ) : ℚ))) / 3), 0),
       ((scaledSize imgW imgH outW outH).1 - outW, 0)] := by
  have hrange : List.range numParts = [0, 1, 2, 3] := rfl
  rw [hrange]
  simp only [List.map_cons, List.map_nil,
    panOffset_landscape imgW imgH outW outH hland]
  set M : ℚ := ((((scaledSize imgW imgH outW outH).1 - outW : ℤ)) : ℚ) with hM
  have e0 : ((0:ℕ) : ℚ) * M / 3 = 0 := by push_cast; ring
  have e1 : ((1:ℕ) : ℚ) * M / 3 = M / 3 := by push_cast; ring
  have e2 : ((2:ℕ) : ℚ) * M / 3 = 2 * M / 3 := by push_cast; ring
  have e3 : ((3:ℕ) : ℚ) * M / 3 = M := by push_cast; ring
  rw [e0, e1, e2, e3, pyInt_zero, hM, pyInt_intCast]

theorem landscape_pan_offsets_witness :
    ((300 : ℤ) < 400) ∧
    (List.range numParts).map (panOffset 400 300 1080 1920) =
      [(0, 0),
       (pyInt (((((scaledSize 400 300 1080 1920).1 - 1080 : ℤ) : ℚ)) / 3), 0),
       (pyInt ((2 * ((((scaledSize 400 300 1080 1920).1 - 1080 : ℤ) : ℚ))) / 3), 0),
       ((scaledSize 400 300 1080 1920).1 - 1080, 0)] :=
  ⟨by decide, landscape_pan_offsets 400 300 1080 1920 (by decide)⟩

/-- One-segment list used by several witnesses. -/
def segsOne : List (ℚ × ℚ) := [(0, 1)]

/-- Baseline witness arguments: one segment, centre focal point, no
trailing image. -/
def argsC3 : Args :=
  { clips_of_interest := some segsOne, speed_multiplier := 1,
    target_aspect_ratio := (9, 16), max_duration_sec := 59,
    focal_points := some [(1/2, 1/2)], output_resolution := (1080, 1920),
    image_path := none }

/-- Witness environment whose write step fails. -/
def envWF : Env :=
  { loadOk := true, srcDuration := 100, srcW := 1920, srcH := 1080,
    imageExists := false, imgW := 400, imgH := 300, writeOk := false }

theorem final_crop_uses_first_focal_witness :
    (envW.loadOk = true ∧
     argsC3.clips_of_interest = some segsOne ∧
     argsC3.focal_points = some ((1/2, 1/2) :: []) ∧
     0 < ((segLoop envW argsC3 segsOne 0 0).1 ++ imageClips envW argsC3).length) ∧
    ((create_youtube_short envW argsC3).finalClips =
       (segLoop envW argsC3 segsOne 0 0).1 ++ imageClips envW argsC3 ∧
     (create_youtube_short envW argsC3).finalVideo =
       some (finalAssembly envW argsC3
         ((segLoop envW argsC3 segsOne 0 0).1 ++ imageClips envW argsC3) (1/2, 1/2))) :=
  ⟨⟨rfl, rfl, rfl, of_decide_eq_true (by with_unfolding_all rfl)⟩,
   final_crop_uses_first_focal envW argsC3 segsOne (1/2, 1/2) [] rfl rfl rfl
     (of_decide_eq_true (by with_unfolding_all rfl))⟩

theorem load_and_write_failures_soft_witness :
    (argsC3.clips_of_interest = some segsOne ∧
     argsC3.focal_points = some ((1/2, 1/2) :: []) ∧
     0 < ((segLoop envWF argsC3 segsOne 0 0).1 ++ imageClips envWF argsC3).length) ∧
    ((envWF.loadOk = false →
       (create_youtube_short envWF argsC3).result = RunResult.loadError ∧
       (create_youtube_short envWF argsC3).finalVideo = none ∧
       ∀ msg, (create_youtube_short envWF argsC3).result ≠ RunResult.raised msg) ∧
     (envWF.loadOk = true → envWF.writeOk = false →
       (create_youtube_short envWF argsC3).result = RunResult.writeError ∧
       ∀ msg, (create_youtube_short envWF argsC3).result ≠ RunResult.raised msg)) :=
  ⟨⟨rfl, rfl, of_decide_eq_true (by with_unfolding_all rfl)⟩,
   load_and_write_failures_soft envWF argsC3 segsOne (1/2, 1/2) [] rfl rfl
     (of_decide_eq_true (by with_unfolding_all rfl))⟩

theorem cleanup_on_write_path_witness :
    (envWF.loadOk = true ∧
     argsC3.clips_of_interest = some segsOne ∧
     argsC3.focal_points = some ((1/2, 1/2) :: []) ∧
     0 < ((segLoop envWF argsC3 segsOne 0 0).1 ++ imageClips envWF argsC3).length) ∧
    ((create_youtube_short envWF argsC3).sourceClosed = true ∧
     (create_youtube_short envWF argsC3).finalClipsClosed = true ∧
     (create_youtube_short envWF argsC3).finalVideoClosed = true) :=
  ⟨⟨rfl, rfl, rfl, of_decide_eq_true (by with_unfolding_all rfl)⟩,
   cleanup_on_write_path envWF argsC3 segsOne (1/2, 1/2) [] rfl rfl rfl
     (of_decide_eq_true (by with_unfolding_all rfl))⟩

/-- Witness arguments with a trailing image path that does not exist in
the witness environment. -/
def argsC8 : Args :=
  { clips_of_interest := some segsOne, speed_multiplier := 1,
    target_aspect_ratio := (9, 16), max_duration_sec := 59,
    focal_points := some [(1/2, 1/2)], output_resolution := (1080, 1920),
    image_path := some "trailing.jpg" }

theorem missing_image_nonfatal_witness :
    (envW.loadOk = true ∧
     argsC8.clips_of_interest = some segsOne ∧
     argsC8.image_path = some "trailing.jpg" ∧
     envW.imageExists = false ∧
     argsC8.focal_points = some ((1/2, 1/2) :: []) ∧
     0 < (segLoop envW argsC8 segsOne 0 0).1.length ∧
     envW.writeOk = true) ∧
    ((create_youtube_short envW argsC8).warnedImageMissing = true ∧
     (create_youtube_short envW argsC8).finalClips = (segLoop envW argsC8 segsOne 0 0).1 ∧
     (create_youtube_short envW argsC8).result = RunResult.wrote) :=
  ⟨⟨rfl, rfl, rfl, rfl, rfl, of_decide_eq_true (by with_unfolding_all rfl), rfl⟩,
   missing_image_nonfatal envW argsC8 segsOne "trailing.jpg" (1/2, 1/2) [] rfl rfl rfl rfl rfl
     (of_decide_eq_true (by with_unfolding_all rfl)) rfl⟩

/-- Witness arguments leaving focal_points at its default None. -/
def argsC9 : Args :=
  { clips_of_interest := some segsOne, speed_multiplier := 1,
    target_aspect_ratio := (9, 16), max_duration_sec := 59,
    focal_points := none, output_resolution := (1080, 1920),
    image_path := none }

theorem empty_focal_list_raises_witness :
    (envW.loadOk = true ∧
     argsC9.clips_of_interest = some segsOne ∧
     (argsC9.focal_points = none ∨ argsC9.focal_points = some []) ∧
     0 < ((segLoop envW argsC9 segsOne 0 0).1 ++ imageClips envW argsC9).length) ∧
    ((∃ msg, (create_youtube_short envW argsC9).result = RunResult.raised msg) ∧
     (create_youtube_short envW argsC9).finalVideo = none ∧
     (create_youtube_short envW argsC9).sourceClosed = false ∧
     (∀ idx, focalFor argsC9.focal_points idx = (1/2, 1/2))) :=
  ⟨⟨rfl, rfl, Or.inl rfl, of_decide_eq_true (by with_unfolding_all rfl)⟩,
   empty_focal_list_raises envW argsC9 segsOne rfl rfl (Or.inl rfl)
     (of_decide_eq_true (by with_unfolding_all rfl))⟩

/-- Witness arguments leaving clips_of_interest at its default None. -/
def argsC10 : Args :=
  { clips_of_interest := none, speed_multiplier := 2,
    target_aspect_ratio := (9, 16), max_duration_sec := 59,
    focal_points := none, output_resolution := (1080, 1920),
    image_path := none }

theorem none_segment_list_raises_witness :
    (envW.loadOk = true ∧ argsC10.clips_of_interest = none) ∧
    ((create_youtube_short envW argsC10).result = RunResult.raised "TypeError" ∧
     (create_youtube_short envW argsC10).result ≠ RunResult.noClipsError) :=
  ⟨⟨rfl, rfl⟩, none_segment_list_raises envW argsC10 rfl rfl⟩
